import Mathlib

/-!
Verification development for the multi-car elevator simulation
(car / controller / safety-monitor / call client written in C).

The definitions below are a shallow embedding of the C sources:
pure string and integer functions become Lean functions, the per-car
shared-memory record becomes a structure, and each shared-state
mutation block of the processes becomes a state-transformer function.
C `int` / `long` arithmetic is modelled with `Int` (the values involved
are tiny, far from any overflow), `uint8_t` fields with `Nat`.
C strings are modelled by their content up to the terminating NUL.
-/

/-! ## Floor model (utility file: parse_floor, compare_floors, ...) -/

/-- Result record of `parse_floor` (struct `floor_info` in `elevator.h`). -/
structure FloorInfo where
  ok : Bool
  numeric : Int
  is_basement : Bool
deriving DecidableEq

/-- Characters accepted by `isspace` in the C locale (skipped by `strtol`). -/
def isSpaceC (c : Char) : Bool :=
  c = ' ' || c = '\t' || c = '\n' || c = '\x0b' || c = '\x0c' || c = '\r'

/-- Decimal digit test, as `strtol` base 10 sees it. -/
def isDigitC (c : Char) : Bool :=
  48 ≤ c.toNat && c.toNat ≤ 57

/-- Numeric value of a decimal digit character. -/
def digitVal (c : Char) : Nat := c.toNat - 48

/-- Value of a block of decimal digits. -/
def digitsToNat (ds : List Char) : Nat :=
  ds.foldl (fun a c => 10 * a + digitVal c) 0

/-- Model of `strtol(nptr, &endptr, 10)` restricted to the tiny strings the
program feeds it: skips leading whitespace, takes an optional sign and a
digit block, and returns the value together with the unconsumed suffix
(the `endptr`).  When no digit is consumed the value is `0` and the
suffix is the whole input, exactly as `strtol` leaves `endptr = nptr`. -/
def strtolChars (cs : List Char) : Int × List Char :=
  let afterWs := cs.dropWhile isSpaceC
  let signAndRest : Int × List Char :=
    match afterWs with
    | '+' :: t => (1, t)
    | '-' :: t => (-1, t)
    | _ => (1, afterWs)
  let ds := signAndRest.2.takeWhile isDigitC
  if ds = [] then (0, cs)
  else (signAndRest.1 * (digitsToNat ds : Int), signAndRest.2.dropWhile isDigitC)

/-- Core of `parse_floor` on the character list of the input string. -/
def parseFloorChars (cs : List Char) : FloorInfo :=
  if cs.length = 0 ∨ 3 < cs.length then ⟨false, 0, false⟩
  else
    match cs with
    | 'B' :: tail =>
      if tail.length = 0 then ⟨false, 0, false⟩
      else
        let p := strtolChars tail
        if p.2 ≠ [] ∨ p.1 < 1 ∨ 99 < p.1 then ⟨false, 0, false⟩
        else if tail.headD ' ' = '0' ∧ p.1 ≠ 0 then ⟨false, 0, false⟩
        else ⟨true, -p.1, true⟩
    | _ =>
      let p := strtolChars cs
      if p.2 ≠ [] ∨ p.1 < 1 ∨ 999 < p.1 then ⟨false, 0, false⟩
      else if cs.headD ' ' = '0' ∧ p.1 ≠ 0 then ⟨false, 0, false⟩
      else ⟨true, p.1, false⟩

/-- `parse_floor` from the utility file: parses a floor label such as
`"B12"` or `"305"` into its signed numeric form. -/
def parse_floor (s : String) : FloorInfo :=
  parseFloorChars s.data

/-- `compare_floors`: three-way comparison on the numeric forms; any
invalid input makes the result `0`. -/
def compare_floors (floor1 floor2 : String) : Int :=
  let f1 := parse_floor floor1
  let f2 := parse_floor floor2
  if ¬f1.ok ∨ ¬f2.ok then 0
  else if f1.numeric < f2.numeric then -1
  else if f2.numeric < f1.numeric then 1
  else 0

/-- `is_valid_floor_range`: bounds check implemented with `compare_floors`. -/
def is_valid_floor_range (floor lowest highest : String) : Bool :=
  0 ≤ compare_floors floor lowest ∧ compare_floors floor highest ≤ 0

/-- Decimal rendering of a natural number below 1000, the exact output of
`snprintf("%d")` for the range `floor_to_string` guards. -/
def natChars3 (n : Nat) : List Char :=
  if n < 10 then [Char.ofNat (48 + n)]
  else if n < 100 then [Char.ofNat (48 + n / 10), Char.ofNat (48 + n % 10)]
  else [Char.ofNat (48 + n / 100), Char.ofNat (48 + n / 10 % 10), Char.ofNat (48 + n % 10)]

/-- `floor_to_string`: formats a numeric floor back to a label; invalid
combinations produce the empty string (the C code writes `output[0] = 0`). -/
def floor_to_string (numeric : Int) (isBasement : Bool) : String :=
  if isBasement ∧ numeric < 0 then
    if 1 ≤ -numeric ∧ -numeric ≤ 99 then ('B' :: natChars3 (-numeric).toNat).asString
    else ""
  else if ¬isBasement ∧ 1 ≤ numeric then
    if numeric ≤ 999 then (natChars3 numeric.toNat).asString
    else ""
  else ""

/-- `next_floor_towards`: one step from `current` toward `destination`,
formatted back to a label and bounds-checked; `none` models the C error
return `-1`. -/
def next_floor_towards (current destination lowest highest : String) : Option String :=
  let curr := parse_floor current
  let dest := parse_floor destination
  if ¬curr.ok ∨ ¬dest.ok then none
  else
    let direction : Int := if dest.numeric > curr.numeric then 1 else -1
    let nextNumeric := curr.numeric + direction
    let output :=
      if nextNumeric < 0 then floor_to_string nextNumeric true
      else floor_to_string nextNumeric false
    if is_valid_floor_range output lowest highest then some output
    else none

/-! ## Message framing (utility file: write_message / read_message)

The TCP stream is modelled as a list of byte values.  `write_message`
emits the two big-endian bytes of `htons(strlen(message))` followed by
the message bytes; `read_message` reads two bytes, decodes the length,
and reads that many further bytes (`none` models a short or failed read). -/

/-- Byte stream produced by `write_message` for a message body `msg`. -/
def write_message (msg : List Nat) : List Nat :=
  msg.length % 65536 / 256 :: msg.length % 65536 % 256 :: msg

/-- `read_message` on a byte stream: length prefix then body. -/
def read_message (stream : List Nat) : Option (List Nat) :=
  match stream with
  | b0 :: b1 :: rest =>
    let len := b0 * 256 + b1
    if rest.length < len then none else some (rest.take len)
  | _ => none

/-! ## Shared state record and the operations that mutate it -/

/-- The per-car shared memory record (`car_shared_mem` in `elevator.h`),
without the mutex and condition variable.  String fields hold the
content up to the terminating NUL; `uint8_t` fields are `Nat` values. -/
structure SharedState where
  current_floor : String
  destination_floor : String
  status : String
  open_button : Nat
  close_button : Nat
  safety_system : Nat
  door_obstruction : Nat
  overload : Nat
  emergency_stop : Nat
  individual_service_mode : Nat
  emergency_mode : Nat
deriving DecidableEq

/-- The five valid door states (`VALID_STATUSES` in `safety.c`). -/
def validStatuses : List String :=
  ["Opening", "Open", "Closing", "Closed", "Between"]

/-- `is_valid_status` from `safety.c`. -/
def is_valid_status (s : String) : Bool :=
  validStatuses.contains s

/-- `is_null_terminated(str, maxLen)` on the model: the stored content
fits strictly inside the fixed-size char array. -/
def fitsIn (s : String) (maxLen : Nat) : Bool :=
  s.length < maxLen

/-- `validate_floor_string` from `safety.c`. -/
def validate_floor_string (s : String) : Bool :=
  fitsIn s 4 && (parse_floor s).ok

/-- `validate_obstruction_status_consistency` from `safety.c`. -/
def validate_obstruction_status_consistency (s : SharedState) : Bool :=
  if s.door_obstruction = 1 then s.status = "Opening" ∨ s.status = "Closing"
  else true

/-- `perform_safety_validation` from `safety.c`: the full shared-state
invariant the monitor checks each cycle. -/
def perform_safety_validation (s : SharedState) : Bool :=
  fitsIn s.current_floor 4 && fitsIn s.destination_floor 4 && fitsIn s.status 8 &&
  validate_floor_string s.current_floor && validate_floor_string s.destination_floor &&
  is_valid_status s.status &&
  decide (s.open_button ≤ 1) && decide (s.close_button ≤ 1) &&
  decide (s.door_obstruction ≤ 1) && decide (s.overload ≤ 1) &&
  decide (s.emergency_stop ≤ 1) && decide (s.individual_service_mode ≤ 1) &&
  decide (s.emergency_mode ≤ 1) && decide (s.safety_system ≤ 3) &&
  validate_obstruction_status_consistency s

/-- First block of `process_safety_actions`: bootstrap the heartbeat
counter, but only from its uninitialised value 0. -/
def monitor_bootstrap (s : SharedState) : SharedState :=
  if s.safety_system = 0 then { s with safety_system := 1 } else s

/-- Second block of `process_safety_actions`: reverse the doors if they
are obstructed while closing. -/
def monitor_obstruction (s : SharedState) : SharedState :=
  if s.door_obstruction = 1 ∧ s.status = "Closing" then { s with status := "Opening" }
  else s

/-- Third block of `process_safety_actions`: the emergency stop button
(`handle_safety_violation` is inlined as `emergency_mode := 1`; its
other effect is a log line). -/
def monitor_estop (s : SharedState) : SharedState :=
  if s.emergency_stop = 1 ∧ s.emergency_mode = 0 then
    { s with emergency_mode := 1, emergency_stop := 0 }
  else s

/-- Fourth block of `process_safety_actions`: the overload sensor. -/
def monitor_overload (s : SharedState) : SharedState :=
  if s.overload = 1 ∧ s.emergency_mode = 0 then { s with emergency_mode := 1 }
  else s

/-- Fifth block of `process_safety_actions`: the data-consistency check,
skipped when already in emergency mode. -/
def monitor_validate (s : SharedState) : SharedState :=
  if s.emergency_mode ≠ 1 ∧ ¬perform_safety_validation s then
    { s with emergency_mode := 1 }
  else s

/-- `process_safety_actions` from `safety.c`: one cycle of the safety
monitor, performed with the mutex held; the five blocks run in the
exact order of the C function. -/
def process_safety_actions (s : SharedState) : SharedState :=
  monitor_validate (monitor_overload (monitor_estop (monitor_obstruction (monitor_bootstrap s))))

/-- The `FLOOR f` handler of the car network thread (`network_thread_func`
in `car.c`): runs under the mutex once a message `FLOOR f` arrives. -/
def handle_floor_message (s : SharedState) (f : String) : SharedState :=
  if s.status ≠ "Between" then
    if f = s.current_floor then
      if s.status = "Closed" then { s with status := "Opening" } else s
    else if (parse_floor f).ok then { s with destination_floor := f }
    else s
  else s

/-- The heartbeat block at the end of each network-thread cycle
(`car.c`): saturating increment of `safety_system`, entering emergency
mode when the counter reaches 3. -/
def network_heartbeat (s : SharedState) : SharedState :=
  let s1 :=
    if s.safety_system < 3 then { s with safety_system := s.safety_system + 1 }
    else s
  if 3 ≤ s1.safety_system then { s1 with emergency_mode := 1 } else s1

/-- `handle_open_button` from `car.c`. -/
def handle_open_button (s : SharedState) : SharedState :=
  if s.open_button ≠ 0 then
    let s1 := { s with open_button := 0 }
    if s1.status = "Closed" ∨ s1.status = "Closing" then { s1 with status := "Opening" }
    else s1
  else s

/-- `handle_close_button` from `car.c`. -/
def handle_close_button (s : SharedState) : SharedState :=
  if s.close_button ≠ 0 then
    let s1 := { s with close_button := 0 }
    if s1.status = "Open" then { s1 with status := "Closing" }
    else s1
  else s

/-- The `Opening` branch of the car main loop after the door delay:
re-checks the status and completes the transition to `Open`. -/
def opening_to_open (s : SharedState) : SharedState :=
  if s.status = "Opening" then { s with status := "Open" } else s

/-- The dwell-expired transition of the `Open` branch of the car main
loop (suppressed in individual service mode). -/
def open_to_closing (s : SharedState) : SharedState :=
  if s.status = "Open" ∧ s.individual_service_mode = 0 then { s with status := "Closing" }
  else s

/-- The dwell-extension in the `Open` branch: the open button is
consumed and only the (unmodelled) timestamp changes. -/
def open_extend (s : SharedState) : SharedState :=
  if s.open_button ≠ 0 then { s with open_button := 0 } else s

/-- The `Closing` branch of the car main loop after the door delay. -/
def closing_to_closed (s : SharedState) : SharedState :=
  if s.status = "Closing" then { s with status := "Closed" } else s

/-- The `Closed` branch of the car main loop: coerce an out-of-range
destination back to the current floor, and depart (status `Between`)
when a move is needed, the destination is in range and emergency mode
is off. -/
def closed_step (lowest highest : String) (s : SharedState) : SharedState :=
  if s.status = "Closed" then
    let needMove := s.current_floor ≠ s.destination_floor
    let validDest :=
      if needMove then is_valid_floor_range s.destination_floor lowest highest else true
    let s1 :=
      if needMove ∧ ¬validDest then { s with destination_floor := s.current_floor }
      else s
    if needMove ∧ s.emergency_mode = 0 ∧ validDest then { s1 with status := "Between" }
    else s1
  else s

/-- The `Between` branch of the car main loop after the travel delay:
advance one floor toward the destination and open (or close in service
mode) on arrival.  `sm` is the service-mode snapshot the loop took
before releasing the mutex for the delay. -/
def between_step (lowest highest : String) (sm : Nat) (s : SharedState) : SharedState :=
  if s.status = "Between" then
    let s1 :=
      match next_floor_towards s.current_floor s.destination_floor lowest highest with
      | some nf => { s with current_floor := nf }
      | none => s
    if s1.current_floor = s1.destination_floor then
      if sm ≠ 0 then { s1 with status := "Closed" } else { s1 with status := "Opening" }
    else s1
  else s

/-- The one-shot button client (`internal <name> <operation>`): the
shared-state mutation it performs for each operation string. -/
def internal_op (operation : String) (s : SharedState) : SharedState :=
  if operation = "open" then { s with open_button := 1 }
  else if operation = "close" then { s with close_button := 1 }
  else if operation = "stop" then { s with emergency_stop := 1 }
  else if operation = "service_on" then
    { s with individual_service_mode := 1, emergency_mode := 0 }
  else if operation = "service_off" then { s with individual_service_mode := 0 }
  else if operation = "up" ∨ operation = "down" then
    if s.individual_service_mode = 0 then s
    else if s.status ≠ "Closed" then s
    else
      let ci := parse_floor s.current_floor
      if ci.ok then
        let d : Int := if operation = "up" then 1 else -1
        let stepped := ci.numeric + d
        let nextNumeric := if stepped = 0 then d else stepped
        let nf :=
          if nextNumeric < 0 then floor_to_string nextNumeric true
          else floor_to_string nextNumeric false
        { s with destination_floor := nf }
      else s
  else s

/-- Every shared-state mutation block of the design, as one operation
type: the car state machine branches, the two network-thread mutations,
the safety-monitor cycle, and the button-client operations. -/
inductive ElevOp where
  | openButton : ElevOp
  | closeButton : ElevOp
  | openingToOpen : ElevOp
  | openExtend : ElevOp
  | openToClosing : ElevOp
  | closingToClosed : ElevOp
  | closedStep (lowest highest : String) : ElevOp
  | betweenStep (lowest highest : String) (sm : Nat) : ElevOp
  | heartbeat : ElevOp
  | floorMsg (f : String) : ElevOp
  | safetyCycle : ElevOp
  | internal (operation : String) : ElevOp
deriving DecidableEq

/-- Interpretation of an operation as a state transformer. -/
def applyOp : ElevOp → SharedState → SharedState
  | ElevOp.openButton => handle_open_button
  | ElevOp.closeButton => handle_close_button
  | ElevOp.openingToOpen => opening_to_open
  | ElevOp.openExtend => open_extend
  | ElevOp.openToClosing => open_to_closing
  | ElevOp.closingToClosed => closing_to_closed
  | ElevOp.closedStep lo hi => closed_step lo hi
  | ElevOp.betweenStep lo hi sm => between_step lo hi sm
  | ElevOp.heartbeat => network_heartbeat
  | ElevOp.floorMsg f => fun s => handle_floor_message s f
  | ElevOp.safetyCycle => process_safety_actions
  | ElevOp.internal op => internal_op op

/-! ## Dispatcher model (controller.c) -/

/-- The dispatcher record for one registered car (`car_info` in
`controller.c`); the pending-floor linked list becomes a `List`. -/
structure CarInfo where
  name : String
  lowest : String
  highest : String
  current_floor : String
  destination_floor : String
  status : String
  connected : Bool
  queue : List String
deriving DecidableEq

/-- The 32-bit `INT_MAX` used as the initial best ETA in `find_best_car`. -/
def INT_MAX : Int := 2147483647

/-- `get_car_position_numeric`: the effective position of a car, one
step ahead of `current_floor` while the car is `Closing` or `Between`
and has somewhere to go. -/
def get_car_position_numeric (car : CarInfo) : Int :=
  let ci := parse_floor car.current_floor
  if car.status = "Closing" ∨ car.status = "Between" then
    let di := parse_floor car.destination_floor
    if ci.ok ∧ di.ok ∧ ci.numeric ≠ di.numeric then
      ci.numeric + (if di.numeric > ci.numeric then 1 else -1)
    else ci.numeric
  else ci.numeric

/-- `calculate_eta`: distance from the effective position plus the
queue-length penalty; `INT_MAX` for an invalid target. -/
def calculate_eta (car : CarInfo) (target : String) : Int :=
  let ti := parse_floor target
  if ¬ti.ok then INT_MAX
  else |ti.numeric - get_car_position_numeric car| + car.queue.length

/-- The candidate filter of `find_best_car`: connected, and both floors
inside the car's advertised range. -/
def is_candidate (src dst : String) (c : CarInfo) : Bool :=
  c.connected && is_valid_floor_range src c.lowest c.highest &&
    is_valid_floor_range dst c.lowest c.highest

/-- One iteration of the selection loop of `find_best_car`: the running
best car is kept together with its ETA (`best_eta` in the C code,
starting from `INT_MAX` with no best car, here `none`). -/
def best_step (src dst : String) (best : Option (CarInfo × Int)) (car : CarInfo) :
    Option (CarInfo × Int) :=
  if ¬is_candidate src dst car then best
  else
    let eta := calculate_eta car src
    match best with
    | none => if eta < INT_MAX then some (car, eta) else none
    | some (b, bestEta) =>
      if eta < bestEta ∨ (eta = bestEta ∧ car.name < b.name) then some (car, eta)
      else best

/-- `find_best_car` from `controller.c` (the commented-out direction
filter is absent, as in the compiled code). -/
def find_best_car (cars : List CarInfo) (src dst : String) : Option CarInfo :=
  if ¬(parse_floor src).ok ∨ ¬(parse_floor dst).ok then none
  else (cars.foldl (best_step src dst) none).map Prod.fst

/-- The insertion walk of `add_to_queue` (the inner `while (curr)` loop):
returns how many queued floors the walk passes before the insertion
point, given the sweep direction, whether the immediate head was
skipped, the effective car position and the new floor. -/
def scanWalk (goingUp skippedFirst : Bool) (carPos newFloor : Int) :
    List String → Nat
  | [] => 0
  | q :: rest =>
    let qi := parse_floor q
    if ¬qi.ok then 0
    else if (if goingUp then qi.numeric < carPos else carPos < qi.numeric) then 0
    else if (if skippedFirst then
               (if goingUp then qi.numeric < newFloor else newFloor < qi.numeric)
             else
               (if goingUp then newFloor < qi.numeric else qi.numeric < newFloor)) then 0
    else 1 + scanWalk goingUp skippedFirst carPos newFloor rest

/-- The current-sweep insertion position of `add_to_queue`, including the
special case that skips the immediate head (the floor the car is
heading to now) and then orders the remaining same-sweep floors in the
reversed sense. -/
def insertIndex (goingUp : Bool) (carPos newFloor : Int) (queue : List String) : Nat :=
  match queue with
  | [] => 0
  | q0 :: rest =>
    let fi := parse_floor q0
    if fi.ok ∧ (if goingUp then carPos < fi.numeric else fi.numeric < carPos) ∧
        ¬(if goingUp then newFloor < fi.numeric else fi.numeric < newFloor) then
      1 + scanWalk goingUp true carPos newFloor rest
    else
      scanWalk goingUp false carPos newFloor (q0 :: rest)

/-- `add_to_queue` from `controller.c`: duplicate and invalid floors are
dropped; otherwise the floor is placed by the SCAN rules.  In the
up-sweep case a new floor above the effective position is deferred to
the tail whenever some queued floor of the up sweep lies above it; the
down-sweep case has no such pre-check, exactly as in the source. -/
def add_to_queue (car : CarInfo) (floor : String) : CarInfo :=
  if car.queue.contains floor then car
  else
    let fi := parse_floor floor
    if ¬fi.ok then car
    else
      match car.queue with
      | [] => { car with queue := [floor] }
      | q0 :: _ =>
        let carPos := get_car_position_numeric car
        let ci := parse_floor car.current_floor
        let di := parse_floor car.destination_floor
        let goingUp : Bool :=
          if ci.ok ∧ di.ok ∧ ci.numeric ≠ di.numeric then decide (ci.numeric < di.numeric)
          else
            let firstInfo := parse_floor q0
            firstInfo.ok && ci.ok && decide (ci.numeric < firstInfo.numeric)
        let newFloor := fi.numeric
        let idx :=
          if goingUp then
            if carPos < newFloor then
              let isDownSweep := car.queue.any fun q =>
                let qi := parse_floor q
                qi.ok && decide (carPos < qi.numeric) && decide (newFloor < qi.numeric)
              if isDownSweep then car.queue.length
              else insertIndex true carPos newFloor car.queue
            else car.queue.length
          else
            if newFloor < carPos then insertIndex false carPos newFloor car.queue
            else car.queue.length
        { car with queue := car.queue.take idx ++ floor :: car.queue.drop idx }

/-! ## Call client (call.c) -/

/-- Observable outcome of one run of the `call` client: the message sent
to the dispatcher (if any), the line printed, and the exit code. -/
structure CallOutcome where
  sent : Option String
  output : String
  exitCode : Nat
deriving DecidableEq

/-- The line printed for a dispatcher reply beginning with `CAR `:
`sscanf(response, "CAR %31s", ...)` extracts the next whitespace-free
token of at most 31 characters. -/
def car_arriving_reply (r : String) : String :=
  if (((r.data.drop 4).dropWhile isSpaceC).takeWhile fun c => !isSpaceC c).take 31 = [] then
    "Sorry, no car is available to take this request."
  else
    "Car " ++
      ((((r.data.drop 4).dropWhile isSpaceC).takeWhile fun c => !isSpaceC c).take 31).asString ++
      " is arriving."

/-- The `call <src> <dst>` client (`main` in `call.c`), as a function of
its two floor arguments, whether the dispatcher can be reached
(`connectOk`), and the reply the dispatcher sends (`none` models a
failed write or read). -/
def call_client (src dst : String) (connectOk : Bool) (reply : Option String) :
    CallOutcome :=
  if ¬(parse_floor src).ok ∨ ¬(parse_floor dst).ok then
    ⟨none, "Invalid floor(s) specified.", 1⟩
  else if src = dst then ⟨none, "You are already on that floor!", 1⟩
  else if ¬connectOk then ⟨none, "Unable to connect to elevator system.", 1⟩
  else
    let msg := "CALL " ++ src ++ " " ++ dst
    match reply with
    | none => ⟨some msg, "Unable to connect to elevator system.", 1⟩
    | some r =>
      let out :=
        if r.startsWith "CAR " then car_arriving_reply r
        else "Sorry, no car is available to take this request."
      ⟨some msg, out, 0⟩

/-! ## Concrete data used by witnesses and counterexamples -/

/-- A healthy idle shared state: closed at floor 1, monitor running. -/
def baseState : SharedState :=
  ⟨"1", "1", "Closed", 0, 0, 1, 0, 0, 0, 0, 0⟩

/-- The car of concrete scenario 3 of the spec: serving 1..10, between
floors on the way from 1 to 10, queue holding the single floor 10. -/
def scanDemoCar : CarInfo :=
  ⟨"A", "1", "10", "1", "10", "Between", true, ["10"]⟩

/-- Demo car `A` of scenario 2: range 1..10, idle at floor 1. -/
def demoCarA : CarInfo :=
  ⟨"A", "1", "10", "1", "1", "Closed", true, []⟩

/-- Demo car `B` of scenario 2: range 1..10, idle at floor 5. -/
def demoCarB : CarInfo :=
  ⟨"B", "1", "10", "5", "5", "Closed", true, []⟩

/-- The selection order of `find_best_car`: `c` is at least as good as
`c2` for pickups at `src` when its ETA is lower, or equal with a name
that is not lexicographically larger. -/
def eta_better (src : String) (c c2 : CarInfo) : Prop :=
  calculate_eta c src < calculate_eta c2 src ∨
    (calculate_eta c src = calculate_eta c2 src ∧ ¬c2.name < c.name)

/-! ## Round-trip facts about the floor label formatter

Checked exhaustively over the bounded ranges that `floor_to_string`
guards. -/

set_option maxRecDepth 4000 in
theorem parse_natChars3 :
    ∀ n : Nat, n < 1000 → n ≠ 0 →
      parseFloorChars (natChars3 n) = ⟨true, (n : Int), false⟩ := by
  decide

theorem parse_basement_natChars3 :
    ∀ n : Nat, n < 100 → n ≠ 0 →
      parseFloorChars ('B' :: natChars3 n) = ⟨true, -(n : Int), true⟩ := by
  decide

/-! ## Helper lemmas -/

theorem monitor_bootstrap_em (s : SharedState) (h : s.emergency_mode = 1) :
    (monitor_bootstrap s).emergency_mode = 1 := by
  unfold monitor_bootstrap; split_ifs <;> simp [h]

theorem monitor_obstruction_em (s : SharedState) (h : s.emergency_mode = 1) :
    (monitor_obstruction s).emergency_mode = 1 := by
  unfold monitor_obstruction; split_ifs <;> simp [h]

theorem monitor_estop_em (s : SharedState) (h : s.emergency_mode = 1) :
    (monitor_estop s).emergency_mode = 1 := by
  unfold monitor_estop; split_ifs <;> simp [h]

theorem monitor_overload_em (s : SharedState) (h : s.emergency_mode = 1) :
    (monitor_overload s).emergency_mode = 1 := by
  unfold monitor_overload; split_ifs <;> simp [h]

theorem monitor_validate_em (s : SharedState) (h : s.emergency_mode = 1) :
    (monitor_validate s).emergency_mode = 1 := by
  unfold monitor_validate; split_ifs <;> simp [h]

theorem process_safety_actions_em (s : SharedState) (h : s.emergency_mode = 1) :
    (process_safety_actions s).emergency_mode = 1 :=
  monitor_validate_em _ (monitor_overload_em _ (monitor_estop_em _
    (monitor_obstruction_em _ (monitor_bootstrap_em _ h))))

set_option maxHeartbeats 1000000 in
theorem internal_op_em (o : String) (s : SharedState) (hem : s.emergency_mode = 1)
    (ho : o ≠ "service_on") : (internal_op o s).emergency_mode = 1 := by
  by_cases h1 : o = "open"
  · simp [internal_op, h1, hem]
  by_cases h2 : o = "close"
  · simp [internal_op, h1, h2, hem]
  by_cases h3 : o = "stop"
  · simp [internal_op, h1, h2, h3, hem]
  by_cases h5 : o = "service_off"
  · simp [internal_op, h1, h2, h3, ho, h5, hem]
  by_cases h6 : o = "up" ∨ o = "down"
  · simp only [internal_op, h1, h2, h3, ho, h5, h6, if_false, if_true]
    split_ifs <;> simp [hem]
  · simp [internal_op, h1, h2, h3, ho, h5, h6, hem]

/-! ## Claim theorems -/

/-- Claim C1, evidence of the code bug: a safety-monitor cycle does not
reset a heartbeat counter of 2 back to 1 (the monitor only bootstraps
the counter from 0), so two car network cycles around one monitor cycle
drive a healthy state into emergency mode even though the monitor ran
in between. -/
theorem safety_monitor_does_not_reset_heartbeat :
    (process_safety_actions { baseState with safety_system := 2 }).safety_system = 2 ∧
    (network_heartbeat (process_safety_actions (network_heartbeat baseState))).emergency_mode = 1 ∧
    baseState.emergency_mode = 0 ∧ baseState.safety_system = 1 ∧
    perform_safety_validation baseState = true := by
  decide

/-- Claim C2, counterexample: the button client operation `service_on`
sets `emergency_mode` back to 0, so emergency mode is not latching
against every button-client operation. -/
theorem emergency_cleared_by_service_on :
    ({ baseState with emergency_mode := 1 } : SharedState).emergency_mode = 1 ∧
    (applyOp (ElevOp.internal "service_on")
        { baseState with emergency_mode := 1 }).emergency_mode = 0 := by
  decide

/-- Claim C2 as amended: every modelled operation of the car state
machine, the car network thread, the safety monitor and the button
clients preserves `emergency_mode = 1`, with the single exception of
the button client operation `service_on`, which clears it. -/
theorem emergency_mode_latching_except_service_on (s : SharedState) (op : ElevOp)
    (hem : s.emergency_mode = 1) (hop : op ≠ ElevOp.internal "service_on") :
    (applyOp op s).emergency_mode = 1 := by
  cases op with
  | openButton => simp only [applyOp, handle_open_button]; split_ifs <;> simp [hem]
  | closeButton => simp only [applyOp, handle_close_button]; split_ifs <;> simp [hem]
  | openingToOpen => simp only [applyOp, opening_to_open]; split_ifs <;> simp [hem]
  | openExtend => simp only [applyOp, open_extend]; split_ifs <;> simp [hem]
  | openToClosing => simp only [applyOp, open_to_closing]; split_ifs <;> simp [hem]
  | closingToClosed => simp only [applyOp, closing_to_closed]; split_ifs <;> simp [hem]
  | closedStep lo hi => simp only [applyOp, closed_step]; split_ifs <;> simp [hem]
  | betweenStep lo hi sm =>
    simp only [applyOp, between_step]
    cases hnf : next_floor_towards s.current_floor s.destination_floor lo hi <;>
      simp only [hnf] <;> split_ifs <;> simp [hem]
  | heartbeat => simp only [applyOp, network_heartbeat]; split_ifs <;> simp [hem]
  | floorMsg f => simp only [applyOp, handle_floor_message]; split_ifs <;> simp [hem]
  | safetyCycle => exact process_safety_actions_em s hem
  | internal o =>
    exact internal_op_em o s hem fun h => hop (by rw [h])

/-- Witness for the amended C2 theorem: the open-button operation on an
emergency state keeps emergency mode set. -/
theorem emergency_mode_latching_witness :
    ({ baseState with emergency_mode := 1 } : SharedState).emergency_mode = 1 ∧
    ElevOp.openButton ≠ ElevOp.internal "service_on" ∧
    (applyOp ElevOp.openButton { baseState with emergency_mode := 1 }).emergency_mode = 1 :=
  ⟨by decide, by decide,
    emergency_mode_latching_except_service_on _ _ (by decide) (by decide)⟩

/-- Claim C3, counterexample: with status `Between` a valid `FLOOR 5`
message different from the current floor is ignored entirely, while the
claim says `destination_floor` would be set to 5. -/
theorem floor_message_ignored_in_between :
    (parse_floor "5").ok = true ∧
    ({ baseState with status := "Between" } : SharedState).destination_floor = "1" ∧
    handle_floor_message { baseState with status := "Between" } "5" =
      { baseState with status := "Between" } := by
  decide

/-- Claim C3 as amended: the network-thread handler of `FLOOR f` leaves
the state unchanged when status is `Between`; otherwise, if `f` equals
the current floor it transitions `Closed` to `Opening` and does nothing
for any other status, and if `f` differs from the current floor it sets
the destination exactly when `f` parses as a valid floor. -/
theorem handle_floor_message_spec (s : SharedState) (f : String) :
    (s.status = "Between" → handle_floor_message s f = s) ∧
    (s.status ≠ "Between" → f = s.current_floor → s.status = "Closed" →
      handle_floor_message s f = { s with status := "Opening" }) ∧
    (s.status ≠ "Between" → f = s.current_floor → s.status ≠ "Closed" →
      handle_floor_message s f = s) ∧
    (s.status ≠ "Between" → f ≠ s.current_floor → (parse_floor f).ok = true →
      handle_floor_message s f = { s with destination_floor := f }) ∧
    (s.status ≠ "Between" → f ≠ s.current_floor → (parse_floor f).ok = false →
      handle_floor_message s f = s) := by
  refine ⟨fun h1 => ?_, fun h1 h2 h3 => ?_, fun h1 h2 h3 => ?_,
    fun h1 h2 h3 => ?_, fun h1 h2 h3 => ?_⟩
  · simp [handle_floor_message, h1]
  · simp [handle_floor_message, h1, h2, h3]
  · simp [handle_floor_message, h1, h2, h3]
  · simp [handle_floor_message, h1, h2, h3]
  · simp [handle_floor_message, h1, h2, h3]

/-- Witness for the amended C3 theorem: a `FLOOR 5` message for a car
closed at floor 1 sets the destination to 5. -/
theorem handle_floor_message_spec_witness :
    handle_floor_message baseState "5" = { baseState with destination_floor := "5" } :=
  (handle_floor_message_spec baseState "5").2.2.2.1 (by decide) (by decide) (by decide)

/-- Claim C4, counterexample: with destination equal to the current
floor the step direction is computed as `-1`, so the function returns
the floor below instead of the current floor demanded by the claim. -/
theorem next_floor_towards_equal_counterexample :
    next_floor_towards "5" "5" "1" "10" = some "4" ∧ ("4" : String) ≠ "5" := by
  decide

/-- Claim C6: the SCAN-insertion scenario of the spec.  The car serving
1..10 sits between floors on its way from 1 to 10 with queue `[10]`;
its effective position is 2, and inserting pickup 4 and then pickup 3
defers each to the tail, giving queue `[10, 4, 3]`. -/
theorem scan_insertion_scenario :
    get_car_position_numeric scanDemoCar = 2 ∧
    (add_to_queue (add_to_queue scanDemoCar "4") "3").queue = ["10", "4", "3"] := by
  decide

/-! Field-preservation lemmas for the safety-monitor blocks, used by the
door-reversal claim. -/

theorem monitor_bootstrap_status (s : SharedState) :
    (monitor_bootstrap s).status = s.status := by
  unfold monitor_bootstrap; split_ifs <;> rfl

theorem monitor_bootstrap_obstruction (s : SharedState) :
    (monitor_bootstrap s).door_obstruction = s.door_obstruction := by
  unfold monitor_bootstrap; split_ifs <;> rfl

theorem monitor_estop_status (s : SharedState) :
    (monitor_estop s).status = s.status := by
  unfold monitor_estop; split_ifs <;> rfl

theorem monitor_overload_status (s : SharedState) :
    (monitor_overload s).status = s.status := by
  unfold monitor_overload; split_ifs <;> rfl

theorem monitor_validate_status (s : SharedState) :
    (monitor_validate s).status = s.status := by
  unfold monitor_validate; split_ifs <;> rfl

/-- Claim C7: whenever a safety-monitor cycle observes an obstructed
door while the status is `Closing`, the state it leaves behind has
status `Opening`. -/
theorem monitor_reverses_obstructed_closing (s : SharedState)
    (hobs : s.door_obstruction = 1) (hst : s.status = "Closing") :
    (process_safety_actions s).status = "Opening" := by
  unfold process_safety_actions
  rw [monitor_validate_status, monitor_overload_status, monitor_estop_status]
  have h1 : (monitor_bootstrap s).door_obstruction = 1 := by
    rw [monitor_bootstrap_obstruction]; exact hobs
  have h2 : (monitor_bootstrap s).status = "Closing" := by
    rw [monitor_bootstrap_status]; exact hst
  simp [monitor_obstruction, h1, h2]

/-- Witness for the C7 theorem at a concrete obstructed closing state. -/
theorem monitor_reverses_obstructed_closing_witness :
    ({ baseState with status := "Closing", door_obstruction := 1 } : SharedState).door_obstruction = 1 ∧
    (process_safety_actions
        { baseState with status := "Closing", door_obstruction := 1 }).status = "Opening" :=
  ⟨by decide, monitor_reverses_obstructed_closing _ (by decide) (by decide)⟩

/-- Claim C8: reading back a framed message returns the original body
for every byte string of length at most 65535. -/
theorem read_write_message_roundtrip (msg : List Nat) (h : msg.length ≤ 65535) :
    read_message (write_message msg) = some msg := by
  have hlen : msg.length % 65536 / 256 * 256 + msg.length % 65536 % 256 = msg.length := by
    omega
  show (if msg.length < msg.length % 65536 / 256 * 256 + msg.length % 65536 % 256 then
      none else some (msg.take (msg.length % 65536 / 256 * 256 + msg.length % 65536 % 256))) =
    some msg
  rw [hlen]
  simp

/-- Witness for the C8 theorem on the bytes of `CALL`. -/
theorem read_write_message_roundtrip_witness :
    ([67, 65, 76, 76] : List Nat).length ≤ 65535 ∧
    read_message (write_message [67, 65, 76, 76]) = some [67, 65, 76, 76] :=
  ⟨by decide, read_write_message_roundtrip [67, 65, 76, 76] (by decide)⟩

/-- Claim C9, counterexample: invoked with the two valid (and equal)
floor labels 3 and 3, the call client sends nothing and exits 1, while
the claim requires a `CALL` message and exit 0. -/
theorem call_client_equal_floors_counterexample :
    (parse_floor "3").ok = true ∧
    call_client "3" "3" true (some "CAR A") =
      ⟨none, "You are already on that floor!", 1⟩ := by
  decide

/-- Claim C9 as amended: for two distinct valid floor labels the client
sends `CALL <src> <dst>` and exits 0 whenever the dispatcher answers,
printing the arriving-car line or the no-car line; it exits 1 with
nothing sent when the dispatcher cannot be reached, and exits 1 when
the reply read fails. -/
theorem call_client_spec (src dst : String) (connectOk : Bool) (reply : Option String)
    (hs : (parse_floor src).ok = true) (hd : (parse_floor dst).ok = true)
    (hne : src ≠ dst) :
    (∀ r, connectOk = true → reply = some r →
      (call_client src dst connectOk reply).sent = some ("CALL " ++ src ++ " " ++ dst) ∧
      (call_client src dst connectOk reply).exitCode = 0 ∧
      ((∃ nm, (call_client src dst connectOk reply).output = "Car " ++ nm ++ " is arriving.") ∨
        (call_client src dst connectOk reply).output =
          "Sorry, no car is available to take this request.")) ∧
    (connectOk = false →
      (call_client src dst connectOk reply).sent = none ∧
      (call_client src dst connectOk reply).exitCode = 1) ∧
    (reply = none → (call_client src dst connectOk reply).exitCode = 1) := by
  refine ⟨?_, ?_, ?_⟩
  · intro r hc hr
    subst hc hr
    have hcc : call_client src dst true (some r) =
        ⟨some ("CALL " ++ src ++ " " ++ dst),
          if r.startsWith "CAR " then car_arriving_reply r
          else "Sorry, no car is available to take this request.", 0⟩ := by
      simp [call_client, hs, hd, hne]
    refine ⟨by rw [hcc], by rw [hcc], ?_⟩
    rw [hcc]
    by_cases hsw : r.startsWith "CAR "
    · simp only [hsw, if_true]
      unfold car_arriving_reply
      split_ifs with ht
      · exact Or.inr rfl
      · exact Or.inl ⟨_, rfl⟩
    · simp [hsw]
  · intro hc
    subst hc
    simp [call_client, hs, hd, hne]
  · intro hr
    subst hr
    cases connectOk <;> simp [call_client, hs, hd, hne]

/-- Witness for the amended C9 theorem: `call 3 7` with reply `CAR A`. -/
theorem call_client_spec_witness :
    (call_client "3" "7" true (some "CAR A")).sent = some ("CALL " ++ "3" ++ " " ++ "7") ∧
    (call_client "3" "7" true (some "CAR A")).exitCode = 0 ∧
    ((∃ nm, (call_client "3" "7" true (some "CAR A")).output = "Car " ++ nm ++ " is arriving.") ∨
      (call_client "3" "7" true (some "CAR A")).output =
        "Sorry, no car is available to take this request.") :=
  (call_client_spec "3" "7" true (some "CAR A") (by decide) (by decide)
    (by decide)).1 "CAR A" rfl rfl

/-- Claim C10: every string rejected by `parse_floor` compares equal
(result 0) to any bound, and therefore passes `is_valid_floor_range`
against any bounds, which is exactly the range check the car applies to
`destination_floor` in its `Closed` state. -/
theorem invalid_floor_passes_range_check (f lo hi : String)
    (h : (parse_floor f).ok = false) :
    compare_floors f lo = 0 ∧ is_valid_floor_range f lo hi = true := by
  have hc : ∀ b : String, compare_floors f b = 0 := by
    intro b; simp [compare_floors, h]
  exact ⟨hc lo, by simp [is_valid_floor_range, hc]⟩

/-- Witness for the C10 theorem: the invalid label `abc` passes the
range check for bounds 1..10. -/
theorem invalid_floor_passes_range_check_witness :
    (parse_floor "abc").ok = false ∧
    compare_floors "abc" "1" = 0 ∧ is_valid_floor_range "abc" "1" "10" = true :=
  ⟨by decide, invalid_floor_passes_range_check "abc" "1" "10" (by decide)⟩

/-! Bounds and round-trip lemmas for valid floor labels. -/

theorem parseFloorChars_ok_inv (cs : List Char) :
    (parseFloorChars cs).ok = true →
      (1 ≤ (parseFloorChars cs).numeric ∧ (parseFloorChars cs).numeric ≤ 999 ∧
        (parseFloorChars cs).is_basement = false) ∨
      (-99 ≤ (parseFloorChars cs).numeric ∧ (parseFloorChars cs).numeric ≤ -1 ∧
        (parseFloorChars cs).is_basement = true) := by
  simp only [parseFloorChars]
  split
  · simp
  · split <;> split_ifs <;> intro h <;> simp_all

theorem parse_floor_bounds (s : String) (h : (parse_floor s).ok = true) :
    -99 ≤ (parse_floor s).numeric ∧ (parse_floor s).numeric ≤ 999 ∧
      (parse_floor s).numeric ≠ 0 := by
  have hinv := parseFloorChars_ok_inv s.data h
  unfold parse_floor
  rcases hinv with ⟨h1, h2, _⟩ | ⟨h1, h2, _⟩ <;> exact ⟨by omega, by omega, by omega⟩

theorem parse_floor_label (n : Int) (h1 : -99 ≤ n) (h2 : n ≤ 999) (h0 : n ≠ 0) :
    parse_floor (if n < 0 then floor_to_string n true else floor_to_string n false) =
      ⟨true, n, decide (n < 0)⟩ := by
  by_cases hn : n < 0
  · have hlab : (if n < 0 then floor_to_string n true else floor_to_string n false) =
        ('B' :: natChars3 (-n).toNat).asString := by
      rw [if_pos hn]
      unfold floor_to_string
      rw [if_pos ⟨rfl, hn⟩, if_pos ⟨by omega, by omega⟩]
    rw [hlab]
    rw [show parse_floor (('B' :: natChars3 (-n).toNat).asString) =
      parseFloorChars ('B' :: natChars3 (-n).toNat) from rfl]
    rw [parse_basement_natChars3 (-n).toNat (by omega) (by omega)]
    have hcast : -(((-n).toNat : Int)) = n := by omega
    rw [hcast]
    simp [hn]
  · have hlab : (if n < 0 then floor_to_string n true else floor_to_string n false) =
        (natChars3 n.toNat).asString := by
      rw [if_neg hn]
      unfold floor_to_string
      rw [if_neg (by simp), if_pos ⟨by simp, by omega⟩, if_pos (by omega)]
    rw [hlab]
    rw [show parse_floor ((natChars3 n.toNat).asString) =
      parseFloorChars (natChars3 n.toNat) from rfl]
    rw [parse_natChars3 n.toNat (by omega) (by omega)]
    have hcast : ((n.toNat : Int)) = n := by omega
    rw [hcast]
    simp [hn]

theorem compare_floors_both_ok (a b : String) (ha : (parse_floor a).ok = true)
    (hb : (parse_floor b).ok = true) :
    compare_floors a b =
      if (parse_floor a).numeric < (parse_floor b).numeric then -1
      else if (parse_floor b).numeric < (parse_floor a).numeric then 1 else 0 := by
  simp [compare_floors, ha, hb]

theorem is_valid_floor_range_both_ok (f lo hi : String)
    (hf : (parse_floor f).ok = true) (hlo : (parse_floor lo).ok = true)
    (hhi : (parse_floor hi).ok = true) :
    is_valid_floor_range f lo hi =
      decide ((parse_floor lo).numeric ≤ (parse_floor f).numeric ∧
        (parse_floor f).numeric ≤ (parse_floor hi).numeric) := by
  unfold is_valid_floor_range
  rw [compare_floors_both_ok f lo hf hlo, compare_floors_both_ok f hi hf hhi,
    decide_eq_decide]
  split_ifs <;> omega

/-- Claim C4 as amended: for valid labels with destination different
from current, the step direction is +1 when the destination is above
and -1 otherwise, and, provided the stepped value does not land on the
nonexistent floor 0, `next_floor_towards` returns the label of
`current + direction` when that value lies within `[lo, hi]` and errors
when it lies outside.  (When destination = current the code steps down
by one instead of returning current, and a step crossing zero succeeds
with an empty label; both are excluded here.) -/
theorem next_floor_towards_spec (current destination lowest highest : String) (n : Int)
    (hc : (parse_floor current).ok = true) (hd : (parse_floor destination).ok = true)
    (hl : (parse_floor lowest).ok = true) (hh : (parse_floor highest).ok = true)
    (hne : (parse_floor current).numeric ≠ (parse_floor destination).numeric)
    (hn : n = (parse_floor current).numeric +
      (if (parse_floor destination).numeric > (parse_floor current).numeric then 1 else -1))
    (hnz : n ≠ 0) :
    (((parse_floor lowest).numeric ≤ n ∧ n ≤ (parse_floor highest).numeric) →
      next_floor_towards current destination lowest highest =
        some (if n < 0 then floor_to_string n true else floor_to_string n false) ∧
      (parse_floor (if n < 0 then floor_to_string n true
        else floor_to_string n false)).numeric = n) ∧
    (¬((parse_floor lowest).numeric ≤ n ∧ n ≤ (parse_floor highest).numeric) →
      next_floor_towards current destination lowest highest = none) := by
  obtain ⟨hcb1, hcb2, hcb0⟩ := parse_floor_bounds current hc
  obtain ⟨hdb1, hdb2, hdb0⟩ := parse_floor_bounds destination hd
  have hb1 : -99 ≤ n := by
    rcases lt_or_gt_of_ne hne with hlt | hgt
    · rw [hn, if_pos hlt]; omega
    · rw [hn, if_neg (by omega)]; omega
  have hb2 : n ≤ 999 := by
    rcases lt_or_gt_of_ne hne with hlt | hgt
    · rw [hn, if_pos hlt]; omega
    · rw [hn, if_neg (by omega)]; omega
  have hlabel := parse_floor_label n hb1 hb2 hnz
  have hfok : (parse_floor (if n < 0 then floor_to_string n true
      else floor_to_string n false)).ok = true := by rw [hlabel]
  have hfnum : (parse_floor (if n < 0 then floor_to_string n true
      else floor_to_string n false)).numeric = n := by rw [hlabel]
  have key : next_floor_towards current destination lowest highest =
      (if is_valid_floor_range
          (if n < 0 then floor_to_string n true else floor_to_string n false)
          lowest highest then
        some (if n < 0 then floor_to_string n true else floor_to_string n false)
      else none) := by
    simp only [next_floor_towards, hc, hd]
    rw [← hn]
    simp
  have hrange : is_valid_floor_range
      (if n < 0 then floor_to_string n true else floor_to_string n false)
      lowest highest =
      decide ((parse_floor lowest).numeric ≤ n ∧ n ≤ (parse_floor highest).numeric) := by
    rw [is_valid_floor_range_both_ok _ _ _ hfok hl hh, hfnum]
  constructor
  · intro hr
    rw [key, hrange, decide_eq_true hr]
    exact ⟨if_pos rfl, hfnum⟩
  · intro hr
    rw [key, hrange]
    simp [hr]

/-- Witness for the amended C4 theorem: one step from floor 2 toward 5
inside range 1..10 lands on floor 3. -/
theorem next_floor_towards_spec_witness :
    next_floor_towards "2" "5" "1" "10" =
      some (if (3 : Int) < 0 then floor_to_string 3 true else floor_to_string 3 false) :=
  ((next_floor_towards_spec "2" "5" "1" "10" 3 (by decide) (by decide) (by decide)
      (by decide) (by decide) (by decide) (by decide)).1 (by decide)).1

/-! Lemmas about the selection order and the fold of `find_best_car`. -/

theorem eta_better_refl (src : String) (c : CarInfo) : eta_better src c c :=
  Or.inr ⟨rfl, lt_irrefl _⟩

theorem eta_better_trans (src : String) (a b c : CarInfo)
    (h1 : eta_better src a b) (h2 : eta_better src b c) : eta_better src a c := by
  rcases h1 with h1 | ⟨h1e, h1n⟩ <;> rcases h2 with h2 | ⟨h2e, h2n⟩
  · exact Or.inl (lt_trans h1 h2)
  · exact Or.inl (h2e ▸ h1)
  · exact Or.inl (h1e ▸ h2)
  · exact Or.inr ⟨h1e.trans h2e, not_lt.mpr (le_trans (not_lt.mp h1n) (not_lt.mp h2n))⟩

theorem best_step_skip (src dst : String) (acc : Option (CarInfo × Int)) (x : CarInfo)
    (hx : is_candidate src dst x = false) : best_step src dst acc x = acc := by
  simp [best_step, hx]

theorem best_step_none_cand (src dst : String) (x : CarInfo)
    (hx : is_candidate src dst x = true) (hlt : calculate_eta x src < INT_MAX) :
    best_step src dst none x = some (x, calculate_eta x src) := by
  simp [best_step, hx, hlt]

theorem best_step_some_take (src dst : String) (b x : CarInfo)
    (hx : is_candidate src dst x = true)
    (hb : calculate_eta x src < calculate_eta b src ∨
      (calculate_eta x src = calculate_eta b src ∧ x.name < b.name)) :
    best_step src dst (some (b, calculate_eta b src)) x =
      some (x, calculate_eta x src) := by
  have h0 : best_step src dst (some (b, calculate_eta b src)) x =
      (if calculate_eta x src < calculate_eta b src ∨
          (calculate_eta x src = calculate_eta b src ∧ x.name < b.name) then
        some (x, calculate_eta x src)
      else some (b, calculate_eta b src)) := by
    unfold best_step
    rw [if_neg (not_not_intro hx)]
  rw [h0, if_pos hb]

theorem best_step_some_keep (src dst : String) (b x : CarInfo)
    (hx : is_candidate src dst x = true)
    (hb : ¬(calculate_eta x src < calculate_eta b src ∨
      (calculate_eta x src = calculate_eta b src ∧ x.name < b.name))) :
    best_step src dst (some (b, calculate_eta b src)) x =
      some (b, calculate_eta b src) := by
  have h0 : best_step src dst (some (b, calculate_eta b src)) x =
      (if calculate_eta x src < calculate_eta b src ∨
          (calculate_eta x src = calculate_eta b src ∧ x.name < b.name) then
        some (x, calculate_eta x src)
      else some (b, calculate_eta b src)) := by
    unfold best_step
    rw [if_neg (not_not_intro hx)]
  rw [h0, if_neg hb]

theorem best_fold_some (src dst : String) (cars : List CarInfo) :
    ∀ b : CarInfo,
      ∃ c : CarInfo,
        List.foldl (best_step src dst) (some (b, calculate_eta b src)) cars =
          some (c, calculate_eta c src) ∧
        (c = b ∨ (c ∈ cars ∧ is_candidate src dst c = true)) ∧
        eta_better src c b ∧
        ∀ c2 ∈ cars, is_candidate src dst c2 = true → eta_better src c c2 := by
  induction cars with
  | nil =>
    intro b
    exact ⟨b, rfl, Or.inl rfl, eta_better_refl src b, by simp⟩
  | cons x xs ih =>
    intro b
    cases hx : is_candidate src dst x with
    | false =>
      obtain ⟨c, hf, hmem, hcb, hall⟩ := ih b
      refine ⟨c, ?_, ?_, hcb, ?_⟩
      · rw [List.foldl_cons, best_step_skip src dst _ x hx]; exact hf
      · rcases hmem with h | ⟨hm, hc⟩
        · exact Or.inl h
        · exact Or.inr ⟨List.mem_cons_of_mem x hm, hc⟩
      · intro c2 hc2 hcand
        rcases List.mem_cons.mp hc2 with rfl | hc2m
        · rw [hcand] at hx; cases hx
        · exact hall c2 hc2m hcand
    | true =>
      by_cases hcmp : calculate_eta x src < calculate_eta b src ∨
          (calculate_eta x src = calculate_eta b src ∧ x.name < b.name)
      · obtain ⟨c, hf, hmem, hcx, hall⟩ := ih x
        have hxb : eta_better src x b := by
          rcases hcmp with h | ⟨he, hnm⟩
          · exact Or.inl h
          · exact Or.inr ⟨he, lt_asymm hnm⟩
        refine ⟨c, ?_, ?_, eta_better_trans src c x b hcx hxb, ?_⟩
        · rw [List.foldl_cons, best_step_some_take src dst b x hx hcmp]; exact hf
        · rcases hmem with h | ⟨hm, hc⟩
          · exact Or.inr ⟨by rw [h]; exact List.mem_cons_self x xs, by rw [h]; exact hx⟩
          · exact Or.inr ⟨List.mem_cons_of_mem x hm, hc⟩
        · intro c2 hc2 hcand
          rcases List.mem_cons.mp hc2 with rfl | hc2m
          · exact hcx
          · exact hall c2 hc2m hcand
      · obtain ⟨c, hf, hmem, hcb, hall⟩ := ih b
        have hbx : eta_better src b x := by
          push_neg at hcmp
          obtain ⟨hle, himp⟩ := hcmp
          rcases eq_or_lt_of_le hle with he | hlt
          · exact Or.inr ⟨he, himp he.symm⟩
          · exact Or.inl hlt
        refine ⟨c, ?_, ?_, hcb, ?_⟩
        · rw [List.foldl_cons, best_step_some_keep src dst b x hx hcmp]; exact hf
        · rcases hmem with h | ⟨hm, hc⟩
          · exact Or.inl h
          · exact Or.inr ⟨List.mem_cons_of_mem x hm, hc⟩
        · intro c2 hc2 hcand
          rcases List.mem_cons.mp hc2 with rfl | hc2m
          · exact eta_better_trans src c b c2 hcb hbx
          · exact hall c2 hc2m hcand

theorem best_fold_none_all (src dst : String) (cars : List CarInfo)
    (h : ∀ c ∈ cars, is_candidate src dst c = false) :
    List.foldl (best_step src dst) none cars = none := by
  induction cars with
  | nil => rfl
  | cons x xs ih =>
    rw [List.foldl_cons, best_step_skip src dst none x (h x (List.mem_cons_self x xs))]
    exact ih fun c hc => h c (List.mem_cons_of_mem x hc)

theorem best_fold_none_ex (src dst : String) :
    ∀ cars : List CarInfo,
      (∀ c ∈ cars, is_candidate src dst c = true → calculate_eta c src < INT_MAX) →
      (∃ c0 ∈ cars, is_candidate src dst c0 = true) →
      ∃ c : CarInfo,
        List.foldl (best_step src dst) none cars = some (c, calculate_eta c src) ∧
        c ∈ cars ∧ is_candidate src dst c = true ∧
        ∀ c2 ∈ cars, is_candidate src dst c2 = true → eta_better src c c2 := by
  intro cars
  induction cars with
  | nil =>
    intro _ hex
    obtain ⟨c0, h0, _⟩ := hex
    simp at h0
  | cons x xs ih =>
    intro hbound hex
    cases hx : is_candidate src dst x with
    | true =>
      have hxe : calculate_eta x src < INT_MAX :=
        hbound x (List.mem_cons_self x xs) hx
      obtain ⟨c, hf, hmem, hcx, hall⟩ := best_fold_some src dst xs x
      refine ⟨c, ?_, ?_, ?_, ?_⟩
      · rw [List.foldl_cons, best_step_none_cand src dst x hx hxe]; exact hf
      · rcases hmem with rfl | ⟨hm, _⟩
        · exact List.mem_cons_self c xs
        · exact List.mem_cons_of_mem x hm
      · rcases hmem with rfl | ⟨_, hc⟩
        · exact hx
        · exact hc
      · intro c2 hc2 hcand
        rcases List.mem_cons.mp hc2 with rfl | hc2m
        · exact hcx
        · exact hall c2 hc2m hcand
    | false =>
      have hex2 : ∃ c0 ∈ xs, is_candidate src dst c0 = true := by
        obtain ⟨c0, h0, hc0⟩ := hex
        rcases List.mem_cons.mp h0 with rfl | hm
        · rw [hc0] at hx; cases hx
        · exact ⟨c0, hm, hc0⟩
      obtain ⟨c, hf, hm, hc, hall⟩ :=
        ih (fun c hc hcc => hbound c (List.mem_cons_of_mem x hc) hcc) hex2
      refine ⟨c, ?_, List.mem_cons_of_mem x hm, hc, ?_⟩
      · rw [List.foldl_cons, best_step_skip src dst none x hx]; exact hf
      · intro c2 hc2 hcand
        rcases List.mem_cons.mp hc2 with rfl | hc2m
        · rw [hcand] at hx; cases hx
        · exact hall c2 hc2m hcand

/-- Claim C5: for valid call floors, `find_best_car` returns no car
exactly in the absence of candidates (connected cars whose range covers
both floors; there is no direction filter), and otherwise returns a
candidate that minimises the ETA `distance from effective position +
queue length`, ties broken in favour of the lexicographically smaller
name.  The `INT_MAX` side condition only excludes queues of at least
2^31 floors, impossible in the C process. -/
theorem find_best_car_minimises (cars : List CarInfo) (src dst : String)
    (hs : (parse_floor src).ok = true) (hd : (parse_floor dst).ok = true)
    (hbound : ∀ c ∈ cars, is_candidate src dst c = true → calculate_eta c src < INT_MAX) :
    ((∀ c ∈ cars, is_candidate src dst c = false) →
      find_best_car cars src dst = none) ∧
    ((∃ c0 ∈ cars, is_candidate src dst c0 = true) →
      ∃ c, find_best_car cars src dst = some c ∧ c ∈ cars ∧
        is_candidate src dst c = true ∧
        ∀ c2 ∈ cars, is_candidate src dst c2 = true → eta_better src c c2) := by
  have hguard : find_best_car cars src dst =
      (cars.foldl (best_step src dst) none).map Prod.fst := by
    simp [find_best_car, hs, hd]
  constructor
  · intro hnone
    rw [hguard, best_fold_none_all src dst cars hnone]
    rfl
  · intro hex
    obtain ⟨c, hf, hm, hc, hall⟩ := best_fold_none_ex src dst cars hbound hex
    exact ⟨c, by rw [hguard, hf]; rfl, hm, hc, hall⟩

/-- Witness for the C5 theorem: scenario 2 of the spec, cars A at 1 and
B at 5 both serving 1..10, call from 6 to 8; the minimising car exists
(it is B with ETA 1 against 5). -/
theorem find_best_car_minimises_witness :
    ∃ c, find_best_car [demoCarA, demoCarB] "6" "8" = some c ∧
      c ∈ [demoCarA, demoCarB] ∧ is_candidate "6" "8" c = true ∧
      ∀ c2 ∈ [demoCarA, demoCarB], is_candidate "6" "8" c2 = true →
        eta_better "6" c c2 :=
  (find_best_car_minimises [demoCarA, demoCarB] "6" "8" (by decide) (by decide)
    (by decide)).2 ⟨demoCarB, by decide, by decide⟩
